import Mathlib

/-!
Verification development for the server core of a hyper-0.11-style HTTP
server (src/server/mod.rs).  The accept loop of AddrIncoming, the
graceful-shutdown accounting (Info / NotifyService / WaitUntilZero), the
service wrappers (SocketAddrService), the Serve adapter and the
configuration defaults of Http are shallowly embedded as pure Lean
functions.  Environmental effects (the kernel accept queue, timer
readiness) are passed in explicitly:

  * the listener is modelled as a list of accept-call outcomes
    (AcceptResult); an empty list stands for a kernel queue with nothing
    pending, which a real accept call reports as WouldBlock;
  * each poll of a stored backoff Timeout is modelled by a Bool input
    (true = the timer has fired);
  * the first poll of each freshly created 10ms Timeout is modelled by an
    oracle list of Bools consumed in creation order (true = the fresh
    timer is immediately ready);
  * the Rc/Weak pair around the Info cell is modelled by an explicit
    strong count in RcInfo; Weak::upgrade succeeds iff the strong count
    is positive.

Durations are in milliseconds throughout (10ms sleep = 10, 90s
keepalive = 90000, 1s shutdown timeout = 1000).
-/

namespace HyperServer

/-- Mirror of std::io::ErrorKind, keeping the kinds the server code
inspects; every other kind is `other code`. -/
inductive ErrorKind where
  | wouldBlock
  | connectionRefused
  | connectionAborted
  | connectionReset
  | other (code : Nat)
deriving DecidableEq, Repr

/-- Mirror of fn connection_error (src/server/mod.rs:779-783): an accept
error is per-connection iff its kind is ConnectionRefused,
ConnectionAborted or ConnectionReset. -/
def connection_error (e : ErrorKind) : Bool :=
  decide (e = ErrorKind.connectionRefused) ||
  decide (e = ErrorKind.connectionAborted) ||
  decide (e = ErrorKind.connectionReset)

/-- IP family of a socket address (SocketAddr::V4 / SocketAddr::V6). -/
inductive IpFamily where
  | v4
  | v6
deriving DecidableEq, Repr

/-- Mirror of std::net::SocketAddr. -/
inductive SocketAddr where
  | v4 (host : Nat) (port : Nat)
  | v6 (host : Nat) (port : Nat)
deriving DecidableEq, Repr

def SocketAddr.family : SocketAddr → IpFamily
  | SocketAddr.v4 _ _ => IpFamily.v4
  | SocketAddr.v6 _ _ => IpFamily.v6

/-- Model of an accepted TCP socket.  `keepalive` is the SO_KEEPALIVE
duration currently set on it (milliseconds); `keepaliveFails` is the
environmental fact that a set_keepalive syscall on this socket would
return an error. -/
structure TcpSocket where
  id : Nat
  keepalive : Option Nat
  keepaliveFails : Bool
deriving DecidableEq, Repr

/-- socket.set_keepalive(dur): fallible syscall. -/
def TcpSocket.set_keepalive (s : TcpSocket) (dur : Option Nat) :
    Except Unit TcpSocket :=
  if s.keepaliveFails then Except.error () else Except.ok { s with keepalive := dur }

/-- Mirror of AddrStream (src/server/mod.rs:795-812): an accepted socket
together with its peer address. -/
structure AddrStream where
  inner : TcpSocket
  remote_addr : SocketAddr
deriving DecidableEq, Repr

def AddrStream.new (tcp : TcpSocket) (addr : SocketAddr) : AddrStream :=
  { inner := tcp, remote_addr := addr }

/-- impl RemoteAddr for AddrStream: remote() returns the stored peer. -/
def AddrStream.remote (s : AddrStream) : SocketAddr :=
  s.remote_addr

/-- Outcome of one listener.accept() call. -/
inductive AcceptResult where
  | ok (socket : TcpSocket) (addr : SocketAddr)
  | err (e : ErrorKind)
deriving DecidableEq, Repr

/-- Result of polling a Stream: Ready(Some), Ready(None), NotReady, or
Err. -/
inductive StreamPoll (α : Type) (ε : Type) where
  | readySome (a : α)
  | readyNone
  | notReady
  | err (e : ε)
deriving DecidableEq, Repr

/-- Mirror of struct AddrIncoming (src/server/mod.rs:107-114).  The bound
listener is represented by its local address together with the pending
accept outcomes; `timeout` is the stored backoff Timeout, carrying its
duration in ms. -/
structure AddrIncoming where
  addr : SocketAddr
  keep_alive_timeout : Option Nat
  accepts : List AcceptResult
  sleep_on_errors : Bool
  timeout : Option Nat
deriving DecidableEq, Repr

/-- AddrIncoming::new (src/server/mod.rs:698-707). -/
def AddrIncoming.new (addr : SocketAddr) (accepts : List AcceptResult)
    (sleep_on_errors : Bool) : AddrIncoming :=
  { addr := addr, keep_alive_timeout := none, accepts := accepts,
    sleep_on_errors := sleep_on_errors, timeout := none }

/-- AddrIncoming::set_keepalive (src/server/mod.rs:714-716). -/
def AddrIncoming.set_keepalive (s : AddrIncoming) (dur : Option Nat) : AddrIncoming :=
  { s with keep_alive_timeout := dur }

/-- The accept loop inside AddrIncoming::poll (src/server/mod.rs:733-768),
entered after `self.timeout = None`.  Arguments: the keepalive duration
to apply to accepted sockets, the sleep_on_errors flag, the pending
accept outcomes, and the oracle of first-poll results for freshly created
10ms timers.  Returns the poll result, the remaining accept outcomes, and
the value left in `self.timeout` (some 10 exactly when a fresh backoff
timer was stored). -/
def acceptLoop (ka : Option Nat) (so : Bool) :
    List AcceptResult → List Bool →
      StreamPoll AddrStream ErrorKind × List AcceptResult × Option Nat
  | [], _ => (StreamPoll.notReady, [], none)
  | AcceptResult.ok sock addr :: rest, _ =>
      let sock2 :=
        match ka with
        | some dur =>
            match sock.set_keepalive (some dur) with
            | Except.ok s2 => s2
            | Except.error _ => sock
        | none => sock
      (StreamPoll.readySome (AddrStream.new sock2 addr), rest, none)
  | AcceptResult.err e :: rest, fr =>
      if e = ErrorKind.wouldBlock then (StreamPoll.notReady, rest, none)
      else if so then
        if connection_error e then acceptLoop ka so rest fr
        else
          match fr with
          | ready :: fr2 =>
              if ready then acceptLoop ka so rest fr2
              else (StreamPoll.notReady, rest, some 10)
          | [] => (StreamPoll.notReady, rest, some 10)
      else (StreamPoll.err e, rest, none)

/-- Mirror of impl Stream for AddrIncoming, fn poll
(src/server/mod.rs:724-769).  `timerFired` is the poll result of the
stored backoff timer (if any); `fresh` is the oracle for fresh timers
created during this poll. -/
def AddrIncoming.poll (s : AddrIncoming) (timerFired : Bool) (fresh : List Bool) :
    StreamPoll AddrStream ErrorKind × AddrIncoming :=
  match s.timeout with
  | some _ =>
      if timerFired then
        let r := acceptLoop s.keep_alive_timeout s.sleep_on_errors s.accepts fresh
        (r.1, { s with accepts := r.2.1, timeout := r.2.2 })
      else (StreamPoll.notReady, s)
  | none =>
      let r := acceptLoop s.keep_alive_timeout s.sleep_on_errors s.accepts fresh
      (r.1, { s with accepts := r.2.1, timeout := r.2.2 })

/-- Specification-side predicate: the accept loop, run on these pending
outcomes with this fresh-timer oracle, pauses on a non-per-connection
error, i.e. (with sleep_on_errors) it meets an error that is neither
would-block nor per-connection whose fresh 10ms timer is not immediately
ready.  Used to characterise when AddrIncoming.timeout ends up Some. -/
def pausedByExhaustion (so : Bool) : List AcceptResult → List Bool → Bool
  | [], _ => false
  | AcceptResult.ok _ _ :: _, _ => false
  | AcceptResult.err e :: rest, fr =>
      if e = ErrorKind.wouldBlock then false
      else if so then
        if connection_error e then pausedByExhaustion so rest fr
        else
          match fr with
          | ready :: fr2 => if ready then pausedByExhaustion so rest fr2 else true
          | [] => true
      else false

/-- Mirror of the accept phase of Server::run_until: the reactor drives
the incoming stream (for_each); a stream error terminates the run with
that error (src/server/mod.rs:434-437).  Each list element supplies the
timer/oracle inputs for one poll. -/
def runAccepts (s : AddrIncoming) :
    List (Bool × List Bool) → Except ErrorKind (List AddrStream × AddrIncoming)
  | [] => Except.ok ([], s)
  | (tf, fr) :: rest =>
      match AddrIncoming.poll s tf fr with
      | (StreamPoll.err e, _) => Except.error e
      | (StreamPoll.readySome a, s2) =>
          match runAccepts s2 rest with
          | Except.ok (as2, s3) => Except.ok (a :: as2, s3)
          | Except.error e => Except.error e
      | (_, s2) => runAccepts s2 rest

/-- Mirror of struct Info (src/server/mod.rs:903-906): the live-service
count and the at-most-one parked waiter (a task id). -/
structure Info where
  active : Nat
  blocker : Option Nat
deriving DecidableEq, Repr

/-- The Rc<RefCell<Info>> cell shared between run_until (strong) and the
NotifyServices (weak): the strong count plus the cell contents. -/
structure RcInfo where
  strong : Nat
  value : Info
deriving DecidableEq, Repr

/-- Weak::upgrade on the info cell: succeeds iff a strong reference is
still alive. -/
def weakUpgrade (rc : RcInfo) : Option Info :=
  if rc.strong = 0 then none else some rc.value

/-- The Rc::new(RefCell::new(Info { active: 0, blocker: None })) created
by run_until (src/server/mod.rs:400-403). -/
def mkLiveCount : RcInfo :=
  { strong := 1, value := { active := 0, blocker := none } }

/-- run_until's local strong reference going out of scope when it
returns. -/
def releaseStrong (rc : RcInfo) : RcInfo :=
  { rc with strong := rc.strong - 1 }

/-- Mirror of impl Drop for NotifyService (src/server/mod.rs:919-933):
upgrade the weak reference (no-op on failure), decrement active, and if
it reached zero take and notify the parked waiter.  Returns the updated
cell and the list of task ids notified before the drop returns. -/
def notifyServiceDrop (rc : RcInfo) : RcInfo × List Nat :=
  match weakUpgrade rc with
  | none => (rc, [])
  | some info =>
      let a := info.active - 1
      if a = 0 then
        match info.blocker with
        | some task => ({ rc with value := { active := a, blocker := none } }, [task])
        | none => ({ rc with value := { active := a, blocker := none } }, [])
      else ({ rc with value := { info with active := a } }, [])

/-- Mirror of impl Future for WaitUntilZero, fn poll
(src/server/mod.rs:935-948): ready iff active == 0, otherwise park the
current task (id `current`) in the blocker slot. -/
def waitUntilZeroPoll (info : Info) (current : Nat) : Bool × Info :=
  if info.active = 0 then (true, info)
  else (false, { info with blocker := some current })

/-- Service lifecycle events during the accept phase of run_until: a
connection is accepted (the for_each body constructs one NotifyService
and increments active, src/server/mod.rs:406-421) or a spawned
connection finishes and its NotifyService drops. -/
inductive SvcEvent where
  | accept
  | dropSvc
deriving DecidableEq, Repr

def countAccepts : List SvcEvent → Nat
  | [] => 0
  | SvcEvent.accept :: es => countAccepts es + 1
  | SvcEvent.dropSvc :: es => countAccepts es

def countDrops : List SvcEvent → Nat
  | [] => 0
  | SvcEvent.accept :: es => countDrops es
  | SvcEvent.dropSvc :: es => countDrops es + 1

/-- The discipline Rust ownership enforces on the event trace: every drop
is the drop of a NotifyService that is currently alive (each wrapper is
constructed once per accepted connection and dropped once, so drops never
outnumber constructions).  `a` is the number currently alive. -/
def balanced : Nat → List SvcEvent → Prop
  | _, [] => True
  | a, SvcEvent.accept :: es => balanced (a + 1) es
  | a, SvcEvent.dropSvc :: es => 0 < a ∧ balanced (a - 1) es

/-- Run a trace of lifecycle events against the shared info cell,
accumulating all notifications delivered. -/
def runEvents (rc : RcInfo) : List SvcEvent → RcInfo × List Nat
  | [] => (rc, [])
  | SvcEvent.accept :: es =>
      runEvents { rc with value := { rc.value with active := rc.value.active + 1 } } es
  | SvcEvent.dropSvc :: es =>
      let r := notifyServiceDrop rc
      let r2 := runEvents r.1 es
      (r2.1, r.2 ++ r2.2)

/-- Events visible to the drain phase of run_until: a spawned connection
drops its NotifyService, or the shutdown_timeout timer fires. -/
inductive DrainEvent where
  | dropSvc
  | timerFire
deriving DecidableEq, Repr

inductive DrainOutcome where
  | allDrained
  | timedOut
  | stillWaiting
deriving DecidableEq, Repr

/-- The reactor suspended on wait.select(timeout)
(src/server/mod.rs:446-451): a NotifyService drop re-polls the select
only if it delivered a notification (the reactor stays parked
otherwise); a timer fire re-polls the select, which polls WaitUntilZero
first and the timeout second. -/
def drainLoop (rc : RcInfo) : List DrainEvent → DrainOutcome × RcInfo
  | [] => (DrainOutcome.stillWaiting, rc)
  | DrainEvent.dropSvc :: es =>
      let r := notifyServiceDrop rc
      if r.2.isEmpty then drainLoop r.1 es
      else
        let w := waitUntilZeroPoll r.1.value 0
        if w.1 then (DrainOutcome.allDrained, r.1)
        else drainLoop { r.1 with value := w.2 } es
  | DrainEvent.timerFire :: _ =>
      let w := waitUntilZeroPoll rc.value 0
      if w.1 then (DrainOutcome.allDrained, rc)
      else (DrainOutcome.timedOut, { rc with value := w.2 })

/-- reactor.run(wait.select(timeout)): the select is polled once
immediately (WaitUntilZero first), then the reactor sleeps on the event
stream. -/
def runDrain (rc : RcInfo) (events : List DrainEvent) : DrainOutcome × RcInfo :=
  let w := waitUntilZeroPoll rc.value 0
  if w.1 then (DrainOutcome.allDrained, rc)
  else drainLoop { rc with value := w.2 } events

/-- Specification-side drain contract: with S connections outstanding,
return allDrained as soon as the S-th drop arrives, timedOut if the
shutdown timer fires first. -/
def drainSpec : Nat → List DrainEvent → DrainOutcome
  | 0, _ => DrainOutcome.allDrained
  | _ + 1, [] => DrainOutcome.stillWaiting
  | n + 1, DrainEvent.dropSvc :: es => drainSpec n es
  | _ + 1, DrainEvent.timerFire :: _ => DrainOutcome.timedOut

/-- The sequential phases of Server::run_until (src/server/mod.rs:384-452)
in source order: drive accepts until the shutdown signal resolves, drop
the incoming stream (and with it the listener) when the select returns,
arm the shutdown_timeout timer, run the drain wait, return. -/
inductive RunPhase where
  | acceptingConnections
  | listenerDropped
  | drainWaitStarted
  | returned
deriving DecidableEq, Repr

def run_until_phases : List RunPhase :=
  [RunPhase.acceptingConnections, RunPhase.listenerDropped,
   RunPhase.drainWaitStarted, RunPhase.returned]

/-- Mirror of struct Request as the server core sees it: an opaque body
plus the remote-address extension written by proto::request::addr. -/
structure Request where
  body : Nat
  remote_addr : Option SocketAddr
deriving DecidableEq, Repr

structure Response where
  body : Nat
deriving DecidableEq, Repr

/-- proto::request::addr(&mut req, addr): record the peer address in the
request. -/
def proto_request_addr (req : Request) (addr : SocketAddr) : Request :=
  { req with remote_addr := some addr }

/-- Model of a user service instance: it remembers the address passed to
remote_addr and handles requests with an arbitrary function (through
which it observes the request it is given). -/
structure MService where
  remote : Option SocketAddr
  handle : Request → Response

def MService.call (s : MService) (req : Request) : Response :=
  s.handle req

/-- impl HasRemoteAddr: remote_addr(&mut self, addr). -/
def MService.remote_addr (s : MService) (addr : SocketAddr) : MService :=
  { s with remote := some addr }

/-- Mirror of struct SocketAddrService (src/server/mod.rs:863-866),
generic in the wrapped service. -/
structure SocketAddrService (S : Type) where
  addr : SocketAddr
  inner : S
deriving Repr

/-- SocketAddrService::new (src/server/mod.rs:868-875). -/
def SocketAddrService.new {S : Type} (addr : SocketAddr) (service : S) :
    SocketAddrService S :=
  { addr := addr, inner := service }

/-- impl Service for SocketAddrService, fn call (src/server/mod.rs:886-889):
stamp the stored peer address into the request, then delegate to the
inner service (whose own call behaviour is the parameter innerCall). -/
def SocketAddrService.call {S R : Type} (innerCall : S → Request → R)
    (s : SocketAddrService S) (req : Request) : R :=
  innerCall s.inner (proto_request_addr req s.addr)

/-- Mirror of struct NotifyService (src/server/mod.rs:894-897); the weak
reference it holds is modelled by the shared RcInfo cell that
notifyServiceDrop acts on. -/
structure NotifyService (S : Type) where
  inner : S
deriving Repr

/-- impl Service for NotifyService, fn call (src/server/mod.rs:914-916):
plain delegation. -/
def NotifyService.call {S R : Type} (innerCall : S → Request → R)
    (s : NotifyService S) (req : Request) : R :=
  innerCall s.inner req

/-- Mirror of struct Http (src/server/mod.rs:61-67), minus the
PhantomData marker. -/
structure Http where
  max_buf_size : Option Nat
  keep_alive : Bool
  pipeline : Bool
  sleep_on_errors : Bool
deriving DecidableEq, Repr

/-- Http::new (src/server/mod.rs:122-130). -/
def Http.new : Http :=
  { keep_alive := true, max_buf_size := none, pipeline := false,
    sleep_on_errors := false }

/-- Mirror of proto::Conn as configured by serve_connection: the
transport plus the protocol options applied at construction. -/
structure Conn (I : Type) where
  io : I
  keep_alive_enabled : Bool
  flush_pipeline : Bool
  max_buf_size_set : Option Nat
deriving Repr

def Conn.new {I : Type} (io : I) : Conn I :=
  { io := io, keep_alive_enabled := true, flush_pipeline := false,
    max_buf_size_set := none }

def Conn.disable_keep_alive {I : Type} (c : Conn I) : Conn I :=
  { c with keep_alive_enabled := false }

def Conn.set_flush_pipeline {I : Type} (c : Conn I) (v : Bool) : Conn I :=
  { c with flush_pipeline := v }

def Conn.set_max_buf_size {I : Type} (c : Conn I) (m : Nat) : Conn I :=
  { c with max_buf_size_set := some m }

/-- Mirror of proto::dispatch::Dispatcher over a Server role: the user
service plus the configured connection. -/
structure Dispatcher (I S : Type) where
  service : S
  conn : Conn I
deriving Repr

/-- Mirror of struct Connection (server::conn). -/
structure Connection (I S : Type) where
  conn : Dispatcher I S
  remote_addr : SocketAddr
deriving Repr

/-- trait RemoteAddr (src/server/mod.rs:605-607). -/
class RemoteAddr (I : Type) where
  remote : I → SocketAddr

instance : RemoteAddr AddrStream := ⟨AddrStream.remote⟩

/-- Http::serve_connection (src/server/mod.rs:282-302). -/
def Http.serve_connection {I S : Type} [RemoteAddr I] (self : Http)
    (io : I) (service : S) : Connection I S :=
  let addr := RemoteAddr.remote io
  let conn := Conn.new io
  let conn := if self.keep_alive then conn else conn.disable_keep_alive
  let conn := conn.set_flush_pipeline self.pipeline
  let conn :=
    match self.max_buf_size with
    | some m => conn.set_max_buf_size m
    | none => conn
  { conn := { service := service, conn := conn }, remote_addr := addr }

/-- Errors of the ::Error type as the Serve stream surfaces them: an IO
error lifted from the incoming stream, or a factory (NewService)
failure. -/
inductive HError where
  | io (e : ErrorKind)
  | factory (code : Nat)
deriving DecidableEq, Repr

/-- Mirror of struct Serve (src/server/mod.rs:89-93).  The factory is
modelled by the Except value its new_service() call returns (every call
returns this value). -/
structure Serve (I : Type) where
  incoming : I
  new_service : Except HError MService
  protocol : Http

/-- impl Stream for Serve, fn poll (src/server/mod.rs:642-651):
try_ready! the incoming poll (whose outcome for this poll is the
argument), make a fresh service, tell it the peer address, and build the
Connection. -/
def Serve.poll {I J : Type} [RemoteAddr J] (s : Serve I)
    (incomingPoll : StreamPoll J ErrorKind) :
    StreamPoll (Connection J MService) HError :=
  match incomingPoll with
  | StreamPoll.readySome io =>
      match s.new_service with
      | Except.error e => StreamPoll.err e
      | Except.ok svc =>
          let svc := MService.remote_addr svc (RemoteAddr.remote io)
          StreamPoll.readySome (s.protocol.serve_connection io svc)
  | StreamPoll.readyNone => StreamPoll.readyNone
  | StreamPoll.notReady => StreamPoll.notReady
  | StreamPoll.err e => StreamPoll.err (HError.io e)

/-- Mirror of net2::TcpBuilder as used by thread_listener. -/
structure TcpBuilder where
  family : IpFamily
  reuse_address : Bool
  reuse_port : Bool
deriving DecidableEq, Repr

def TcpBuilder.new_v4 : TcpBuilder :=
  { family := IpFamily.v4, reuse_address := false, reuse_port := false }

def TcpBuilder.new_v6 : TcpBuilder :=
  { family := IpFamily.v6, reuse_address := false, reuse_port := false }

/-- fn reuse_port (unix version, src/server/mod.rs:578-584): best-effort
set SO_REUSEPORT. -/
def reuse_port (tcp : TcpBuilder) : TcpBuilder :=
  { tcp with reuse_port := true }

/-- The listener produced by thread_listener: builder settings plus the
listen backlog and bound address. -/
structure TcpListenerM where
  family : IpFamily
  reuse_address : Bool
  reuse_port : Bool
  backlog : Nat
  local_addr : SocketAddr
deriving DecidableEq, Repr

/-- fn thread_listener (src/server/mod.rs:565-576): pick the builder by
the address family, set SO_REUSEPORT (unix) and SO_REUSEADDR, bind, and
listen with backlog 1024. -/
def thread_listener (addr : SocketAddr) : TcpListenerM :=
  let listener :=
    match addr with
    | SocketAddr.v4 _ _ => TcpBuilder.new_v4
    | SocketAddr.v6 _ _ => TcpBuilder.new_v6
  let listener := reuse_port listener
  let listener := { listener with reuse_address := true }
  { family := listener.family, reuse_address := listener.reuse_address,
    reuse_port := listener.reuse_port, backlog := 1024, local_addr := addr }

/-- Mirror of struct Server (src/server/mod.rs:73-82), minus the reactor
Core. -/
structure Server (S : Type) where
  protocol : Http
  new_service : S
  listener : TcpListenerM
  shutdown_timeout : Nat

/-- Http::bind (src/server/mod.rs:178-193): build the listener via
thread_listener and a Server with shutdown_timeout = Duration::new(1, 0)
(1000 ms). -/
def Http.bind {S : Type} (self : Http) (addr : SocketAddr) (new_service : S) :
    Server S :=
  { new_service := new_service, listener := thread_listener addr,
    protocol := self, shutdown_timeout := 1000 }

/-- The AddrIncoming built at the top of run_until
(src/server/mod.rs:391-395): 90s SO_KEEPALIVE tagging iff the protocol's
HTTP keep-alive is enabled. -/
def run_until_incoming (protocol : Http) (addr : SocketAddr)
    (accepts : List AcceptResult) : AddrIncoming :=
  let incoming := AddrIncoming.new addr accepts protocol.sleep_on_errors
  if protocol.keep_alive then incoming.set_keepalive (some 90000) else incoming

/-- The for_each body of run_until (src/server/mod.rs:406-421): make a
fresh service (factory failure terminates the accept phase), wrap it in
SocketAddrService with the socket's remote address, wrap that in a
NotifyService, and increment active. -/
def run_until_body (factory : Except HError MService) (rc : RcInfo)
    (socket : AddrStream) :
    Except HError (NotifyService (SocketAddrService MService) × RcInfo) :=
  match factory with
  | Except.error e => Except.error e
  | Except.ok svc =>
      let addr := socket.remote_addr
      let addr_service := SocketAddrService.new addr svc
      let s : NotifyService (SocketAddrService MService) := { inner := addr_service }
      Except.ok (s, { rc with value := { rc.value with active := rc.value.active + 1 } })

/-! ## Helper lemmas -/

theorem connection_error_true_ne_wouldBlock {e : ErrorKind}
    (h : connection_error e = true) : e ≠ ErrorKind.wouldBlock := by
  intro he
  subst he
  exact absurd h (by decide)

theorem acceptLoop_timeout_eq (ka : Option Nat) :
    ∀ (so : Bool) (accepts : List AcceptResult) (fr : List Bool),
      (acceptLoop ka so accepts fr).2.2 =
        (if pausedByExhaustion so accepts fr then some 10 else none) := by
  intro so accepts
  induction accepts with
  | nil => intro fr; simp [acceptLoop, pausedByExhaustion]
  | cons head rest ih =>
    intro fr
    cases head with
    | ok sock addr => simp [acceptLoop, pausedByExhaustion]
    | err e =>
      by_cases h1 : e = ErrorKind.wouldBlock
      · simp [acceptLoop, pausedByExhaustion, h1]
      · cases h2 : connection_error e with
        | true =>
          cases hso : so with
          | true => subst hso; simp [acceptLoop, pausedByExhaustion, h1, h2, ih]
          | false => subst hso; simp [acceptLoop, pausedByExhaustion, h1]
        | false =>
          cases hso : so with
          | false => subst hso; simp [acceptLoop, pausedByExhaustion, h1]
          | true =>
            subst hso
            cases fr with
            | nil => simp [acceptLoop, pausedByExhaustion, h1, h2]
            | cons b fr2 =>
              cases b with
              | true => simp [acceptLoop, pausedByExhaustion, h1, h2, ih]
              | false => simp [acceptLoop, pausedByExhaustion, h1, h2]

theorem notifyServiceDrop_notifies (rc : RcInfo) (t : Nat)
    (h : 0 < rc.strong) (ha : rc.value.active = 1) (hb : rc.value.blocker = some t) :
    notifyServiceDrop rc = ({ rc with value := { active := 0, blocker := none } }, [t]) := by
  have h0 : ¬ rc.strong = 0 := by omega
  simp [notifyServiceDrop, weakUpgrade, h0, ha, hb]

theorem notifyServiceDrop_keeps (rc : RcInfo)
    (h0 : ¬ rc.strong = 0) (ha : rc.value.active - 1 ≠ 0) :
    notifyServiceDrop rc =
      ({ rc with value := { rc.value with active := rc.value.active - 1 } }, []) := by
  simp [notifyServiceDrop, weakUpgrade, h0, ha]

theorem notifyServiceDrop_strong (rc : RcInfo) :
    (notifyServiceDrop rc).1.strong = rc.strong := by
  by_cases h0 : rc.strong = 0
  · simp [notifyServiceDrop, weakUpgrade, h0]
  · by_cases ha : rc.value.active - 1 = 0
    · rcases hb : rc.value.blocker with _ | t <;>
        simp [notifyServiceDrop, weakUpgrade, h0, ha, hb]
    · simp [notifyServiceDrop_keeps rc h0 ha]

theorem notifyServiceDrop_active (rc : RcInfo) (h0 : ¬ rc.strong = 0) :
    (notifyServiceDrop rc).1.value.active = rc.value.active - 1 := by
  by_cases ha : rc.value.active - 1 = 0
  · rcases hb : rc.value.blocker with _ | t <;>
      simp [notifyServiceDrop, weakUpgrade, h0, ha, hb]
  · simp [notifyServiceDrop_keeps rc h0 ha]

theorem runEvents_count : ∀ (es : List SvcEvent) (rc : RcInfo),
    0 < rc.strong → balanced rc.value.active es →
    (runEvents rc es).1.value.active + countDrops es =
      rc.value.active + countAccepts es := by
  intro es
  induction es with
  | nil =>
    intro rc h hb
    simp [runEvents, countDrops, countAccepts]
  | cons ev rest ih =>
    intro rc h hb
    cases ev with
    | accept =>
      simp only [balanced] at hb
      have hstep :=
        ih { rc with value := { rc.value with active := rc.value.active + 1 } } h hb
      simp only [runEvents, countDrops, countAccepts]
      simp at hstep
      omega
    | dropSvc =>
      simp only [balanced] at hb
      obtain ⟨hpos, hb2⟩ := hb
      have hs := notifyServiceDrop_strong rc
      have hact := notifyServiceDrop_active rc (by omega)
      have hstep := ih (notifyServiceDrop rc).1 (by omega)
        (by rw [hact]; exact hb2)
      simp only [runEvents, countDrops, countAccepts]
      omega

theorem drainLoop_spec : ∀ (events : List DrainEvent) (rc : RcInfo),
    0 < rc.strong → 0 < rc.value.active → rc.value.blocker.isSome →
    (drainLoop rc events).1 = drainSpec rc.value.active events := by
  intro events
  induction events with
  | nil =>
    intro rc h ha hb
    obtain ⟨n, hn⟩ : ∃ n, rc.value.active = n + 1 := ⟨rc.value.active - 1, by omega⟩
    simp [drainLoop, hn, drainSpec]
  | cons ev rest ih =>
    intro rc h ha hb
    cases ev with
    | timerFire =>
      obtain ⟨n, hn⟩ : ∃ n, rc.value.active = n + 1 := ⟨rc.value.active - 1, by omega⟩
      simp [drainLoop, waitUntilZeroPoll, hn, drainSpec]
    | dropSvc =>
      obtain ⟨t, hbt⟩ := Option.isSome_iff_exists.mp hb
      by_cases h1 : rc.value.active = 1
      · have hdrop := notifyServiceDrop_notifies rc t h h1 hbt
        simp [drainLoop, hdrop, waitUntilZeroPoll, drainSpec, h1]
      · obtain ⟨n, hn⟩ : ∃ n, rc.value.active = n + 2 :=
          ⟨rc.value.active - 2, by omega⟩
        have hdrop := notifyServiceDrop_keeps rc (by omega) (by omega)
        have hstep := ih
          ({ rc with value := { rc.value with active := rc.value.active - 1 } })
          (by simpa using h) (by simp; omega) (by simpa using hb)
        simp only [drainLoop, hdrop, List.isEmpty_nil, if_true]
        rw [hstep]
        simp only [hn]
        have : n + 2 - 1 = n + 1 := by omega
        rw [this]
        simp [drainSpec]

/-! ## Claim theorems -/

/-- C1: the accept-error classifier connection_error returns true exactly
for ConnectionRefused, ConnectionAborted and ConnectionReset, and for
every such error with sleep_on_errors = true (and no pending backoff
timer) AddrIncoming.poll continues the accept loop immediately: the poll
behaves exactly as if the per-connection error were not there, so no
backoff timer is armed and no fresh-timer oracle entry consumed. -/
theorem C1_connection_error_classification :
    (∀ e : ErrorKind, connection_error e = true ↔
        (e = ErrorKind.connectionRefused ∨ e = ErrorKind.connectionAborted ∨
         e = ErrorKind.connectionReset))
    ∧
    (∀ (s : AddrIncoming) (e : ErrorKind) (rest : List AcceptResult)
        (tf : Bool) (fr : List Bool),
        s.sleep_on_errors = true → s.timeout = none → connection_error e = true →
        AddrIncoming.poll { s with accepts := AcceptResult.err e :: rest } tf fr =
          AddrIncoming.poll { s with accepts := rest } tf fr) := by
  constructor
  · intro e
    cases e <;> simp [connection_error]
  · intro s e rest tf fr hso ht hce
    have hne : e ≠ ErrorKind.wouldBlock := connection_error_true_ne_wouldBlock hce
    simp [AddrIncoming.poll, ht, acceptLoop, hne, hso, hce]

/-- C1 witness: a ConnectionReset at the head of the queue with
sleep_on_errors = true is skipped with no observable effect. -/
theorem C1_connection_error_classification_witness :
    AddrIncoming.poll
        { AddrIncoming.new (SocketAddr.v4 0 80) [] true with
            accepts := [AcceptResult.err ErrorKind.connectionReset] } false [] =
      AddrIncoming.poll
        { AddrIncoming.new (SocketAddr.v4 0 80) [] true with accepts := [] } false [] :=
  C1_connection_error_classification.2
    (AddrIncoming.new (SocketAddr.v4 0 80) [] true)
    ErrorKind.connectionReset [] false [] rfl rfl (by decide)

/-- C2: with sleep_on_errors = true and a non-would-block,
non-per-connection accept error at the head of the queue: if the freshly
armed 10ms timer is immediately ready the loop continues (the poll
behaves as on the remaining queue), otherwise the timer is stored (as
some 10) and the poll reports not-ready; a later poll with a stored timer
that has not fired reports not-ready keeping the state unchanged, and a
fired stored timer is cleared and the accept retried. -/
theorem C2_backoff_behaviour (s : AddrIncoming) (e : ErrorKind)
    (rest : List AcceptResult) (fr : List Bool) (d : Nat) (tf : Bool) :
    (s.sleep_on_errors = true → s.timeout = none → e ≠ ErrorKind.wouldBlock →
       connection_error e = false →
       (AddrIncoming.poll { s with accepts := AcceptResult.err e :: rest } tf (true :: fr) =
          AddrIncoming.poll { s with accepts := rest } tf fr)
       ∧
       (AddrIncoming.poll { s with accepts := AcceptResult.err e :: rest } tf (false :: fr) =
          (StreamPoll.notReady, { s with accepts := rest, timeout := some 10 })))
    ∧
    (s.timeout = some d → AddrIncoming.poll s false fr = (StreamPoll.notReady, s))
    ∧
    (s.timeout = some d →
       AddrIncoming.poll s true fr = AddrIncoming.poll { s with timeout := none } false fr) := by
  refine ⟨?_, ?_, ?_⟩
  · intro hso ht hne hce
    constructor
    · simp [AddrIncoming.poll, ht, acceptLoop, hne, hso, hce]
    · simp [AddrIncoming.poll, ht, acceptLoop, hne, hso, hce]
  · intro ht
    simp [AddrIncoming.poll, ht]
  · intro ht
    simp [AddrIncoming.poll, ht]

/-- C2 witness: an EMFILE-style error (kind other 24) with an immediately
ready fresh timer continues the loop; with a pending fresh timer it
stores the 10ms timer and reports not-ready; a stored unfired timer keeps
the state; a stored fired timer is cleared and the accept retried. -/
theorem C2_backoff_behaviour_witness :
    (AddrIncoming.poll
        { AddrIncoming.new (SocketAddr.v4 0 80) [] true with
            accepts := [AcceptResult.err (ErrorKind.other 24)] } false [true] =
       AddrIncoming.poll
        { AddrIncoming.new (SocketAddr.v4 0 80) [] true with accepts := [] } false [])
    ∧
    (AddrIncoming.poll
        { AddrIncoming.new (SocketAddr.v4 0 80) [] true with
            accepts := [AcceptResult.err (ErrorKind.other 24)] } false [false] =
       (StreamPoll.notReady,
        { AddrIncoming.new (SocketAddr.v4 0 80) [] true with
            accepts := [], timeout := some 10 }))
    ∧
    (AddrIncoming.poll
        { AddrIncoming.new (SocketAddr.v4 0 80) [] true with timeout := some 10 } false [] =
       (StreamPoll.notReady,
        { AddrIncoming.new (SocketAddr.v4 0 80) [] true with timeout := some 10 }))
    ∧
    (AddrIncoming.poll
        { AddrIncoming.new (SocketAddr.v4 0 80) [] true with timeout := some 10 } true [] =
       AddrIncoming.poll
        { { AddrIncoming.new (SocketAddr.v4 0 80) [] true with timeout := some 10 } with
            timeout := none } false []) := by
  have h1 := C2_backoff_behaviour (AddrIncoming.new (SocketAddr.v4 0 80) [] true)
    (ErrorKind.other 24) [] [] 10 false
  have h2 := C2_backoff_behaviour
    { AddrIncoming.new (SocketAddr.v4 0 80) [] true with timeout := some 10 }
    (ErrorKind.other 24) [] [] 10 false
  exact ⟨(h1.1 rfl rfl (by decide) (by decide)).1,
         (h1.1 rfl rfl (by decide) (by decide)).2,
         h2.2.1 rfl, h2.2.2 rfl⟩

/-- C6: whenever a poll proceeds past the stored-timer check (no stored
timer, or the stored timer polls ready), the timeout field it leaves
behind is Some iff the accept loop paused on a non-per-connection,
non-would-block error whose fresh backoff timer was not immediately
ready (with sleep_on_errors = true), and any stored value is the 10ms
duration; a poll gated by an unfired stored timer leaves the state (and
so the timer) untouched. -/
theorem C6_timeout_field_invariant (s : AddrIncoming) (tf : Bool)
    (fr : List Bool) (d : Nat) :
    ((s.timeout = none ∨ tf = true) →
       (((AddrIncoming.poll s tf fr).2.timeout).isSome ↔
          pausedByExhaustion s.sleep_on_errors s.accepts fr = true)
       ∧ ((AddrIncoming.poll s tf fr).2.timeout = some d → d = 10))
    ∧
    (s.timeout = some d → tf = false →
       AddrIncoming.poll s tf fr = (StreamPoll.notReady, s)) := by
  constructor
  · intro h
    have hpoll : (AddrIncoming.poll s tf fr).2.timeout =
        (acceptLoop s.keep_alive_timeout s.sleep_on_errors s.accepts fr).2.2 := by
      rcases h with h | h
      · simp [AddrIncoming.poll, h]
      · subst h
        cases ht : s.timeout <;> simp [AddrIncoming.poll, ht]
    rw [hpoll, acceptLoop_timeout_eq]
    constructor
    · cases hp : pausedByExhaustion s.sleep_on_errors s.accepts fr <;> simp [hp]
    · cases hp : pausedByExhaustion s.sleep_on_errors s.accepts fr <;> simp [hp]
      intro h10
      omega
  · intro ht htf
    subst htf
    simp [AddrIncoming.poll, ht]

/-- C6 witness: after pausing on an EMFILE-style error the field is Some;
after a plain would-block poll it is none; a gated poll keeps the state
unchanged. -/
theorem C6_timeout_field_invariant_witness :
    (((AddrIncoming.poll
         { AddrIncoming.new (SocketAddr.v4 0 80) [] true with
             accepts := [AcceptResult.err (ErrorKind.other 24)] } false []).2.timeout).isSome ↔
       pausedByExhaustion true [AcceptResult.err (ErrorKind.other 24)] [] = true)
    ∧
    (AddrIncoming.poll
        { AddrIncoming.new (SocketAddr.v4 0 80) [] true with timeout := some 10 } false [] =
       (StreamPoll.notReady,
        { AddrIncoming.new (SocketAddr.v4 0 80) [] true with timeout := some 10 })) := by
  have h1 := C6_timeout_field_invariant
    { AddrIncoming.new (SocketAddr.v4 0 80) [] true with
        accepts := [AcceptResult.err (ErrorKind.other 24)] } false [] 10
  have h2 := C6_timeout_field_invariant
    { AddrIncoming.new (SocketAddr.v4 0 80) [] true with timeout := some 10 } false [] 10
  exact ⟨(h1.1 (Or.inl rfl)).1, h2.2 rfl rfl⟩

/-- C3: with sleep_on_errors = false, an accept error other than
would-block is returned from AddrIncoming.poll as a stream error, and the
accept-phase driver (for_each inside run_until) terminates with that
error; a would-block accept result reports not-ready instead. -/
theorem C3_fatal_accept_errors (s : AddrIncoming) (e : ErrorKind)
    (rest : List AcceptResult) (tf : Bool) (fr : List Bool)
    (polls : List (Bool × List Bool)) :
    s.sleep_on_errors = false → s.timeout = none →
    ((e ≠ ErrorKind.wouldBlock → s.accepts = AcceptResult.err e :: rest →
        (AddrIncoming.poll s tf fr).1 = StreamPoll.err e ∧
        runAccepts s ((tf, fr) :: polls) = Except.error e)
     ∧
     (s.accepts = AcceptResult.err ErrorKind.wouldBlock :: rest →
        (AddrIncoming.poll s tf fr).1 = StreamPoll.notReady)) := by
  intro hso ht
  constructor
  · intro hne hacc
    have hp : (AddrIncoming.poll s tf fr).1 = StreamPoll.err e := by
      simp [AddrIncoming.poll, ht, hacc, acceptLoop, hne, hso]
    refine ⟨hp, ?_⟩
    simp only [runAccepts]
    rcases hpoll : AddrIncoming.poll s tf fr with ⟨r, s2⟩
    rw [hpoll] at hp
    simp at hp
    subst hp
    rfl
  · intro hacc
    simp [AddrIncoming.poll, ht, hacc, acceptLoop]

/-- C3 witness: an AddrInUse-style error (kind other 98) terminates both
the poll and the accept phase; a would-block head reports not-ready. -/
theorem C3_fatal_accept_errors_witness :
    ((AddrIncoming.poll
        { AddrIncoming.new (SocketAddr.v4 0 80) [] false with
            accepts := [AcceptResult.err (ErrorKind.other 98)] } false []).1 =
          StreamPoll.err (ErrorKind.other 98) ∧
      runAccepts
        { AddrIncoming.new (SocketAddr.v4 0 80) [] false with
            accepts := [AcceptResult.err (ErrorKind.other 98)] } [(false, [])] =
          Except.error (ErrorKind.other 98)) := by
  exact
    (C3_fatal_accept_errors
      { AddrIncoming.new (SocketAddr.v4 0 80) [] false with
          accepts := [AcceptResult.err (ErrorKind.other 98)] }
      (ErrorKind.other 98) [] false [] [] rfl rfl).1 (by decide) rfl

/-- C4: over any accept/drop event trace obeying the ownership discipline
(each drop drops a currently-alive NotifyService, so drops never
outnumber constructions), while run_until holds its strong reference the
live counter satisfies active + M = initial + N after N accepts and M
drops; a decrementing drop that takes active to zero with a parked
waiter notifies exactly that waiter before returning; and the for_each
body of run_until constructs exactly one NotifyService per accepted
connection, incrementing active by exactly one. -/
theorem C4_live_count_invariant (rc : RcInfo) (es : List SvcEvent) (t : Nat) :
    (0 < rc.strong → balanced rc.value.active es →
       (runEvents rc es).1.value.active + countDrops es =
         rc.value.active + countAccepts es)
    ∧
    (0 < rc.strong → rc.value.active = 1 → rc.value.blocker = some t →
       notifyServiceDrop rc = ({ rc with value := { active := 0, blocker := none } }, [t]))
    ∧
    (∀ (factory : Except HError MService) (socket : AddrStream)
        (svc : NotifyService (SocketAddrService MService)) (rc2 : RcInfo),
       run_until_body factory rc socket = Except.ok (svc, rc2) →
       rc2.value.active = rc.value.active + 1) := by
  refine ⟨fun h hb => runEvents_count es rc h hb,
          fun h ha hbk => notifyServiceDrop_notifies rc t h ha hbk, ?_⟩
  intro factory socket svc rc2 hok
  cases factory with
  | error e => simp [run_until_body] at hok
  | ok s0 =>
    simp [run_until_body] at hok
    obtain ⟨h1, h2⟩ := hok
    subst h2
    simp

/-- C4 witness: one accept followed by one drop returns the counter of a
fresh LiveCount to zero; a drop at active = 1 with task 7 parked
notifies task 7; the for_each body bumps active from 0 to 1. -/
theorem C4_live_count_invariant_witness :
    ((runEvents mkLiveCount [SvcEvent.accept, SvcEvent.dropSvc]).1.value.active +
        countDrops [SvcEvent.accept, SvcEvent.dropSvc] =
      mkLiveCount.value.active + countAccepts [SvcEvent.accept, SvcEvent.dropSvc])
    ∧
    (notifyServiceDrop { strong := 1, value := { active := 1, blocker := some 7 } } =
      ({ strong := 1, value := { active := 0, blocker := none } }, [7]))
    ∧
    ({ strong := 1, value := { active := 1, blocker := none } } : RcInfo).value.active =
      mkLiveCount.value.active + 1 := by
  have h1 := C4_live_count_invariant mkLiveCount [SvcEvent.accept, SvcEvent.dropSvc] 7
  have h2 := C4_live_count_invariant
    { strong := 1, value := { active := 1, blocker := some 7 } } [] 7
  refine ⟨h1.1 (by decide) (by simp [balanced]), h2.2.1 (by decide) rfl rfl, ?_⟩
  exact h1.2.2 (Except.ok { remote := none, handle := fun r => { body := r.body } })
    (AddrStream.new { id := 0, keepalive := none, keepaliveFails := false }
      (SocketAddr.v4 1 80))
    { inner := SocketAddrService.new (SocketAddr.v4 1 80)
        { remote := none, handle := fun r => { body := r.body } } }
    { strong := 1, value := { active := 1, blocker := none } } rfl

/-- C5: while run_until holds its strong reference, the drain phase
(reactor.run of WaitUntilZero.select(shutdown timeout)) returns
allDrained as soon as the outstanding connections have all dropped, and
timedOut if the shutdown timer fires first — whichever happens first, as
computed by drainSpec on the event order; and in run_until's phase order
the listener is dropped strictly before the drain wait begins. -/
theorem C5_shutdown_drain (rc : RcInfo) (events : List DrainEvent) :
    (0 < rc.strong → (runDrain rc events).1 = drainSpec rc.value.active events)
    ∧
    List.indexOf RunPhase.listenerDropped run_until_phases <
      List.indexOf RunPhase.drainWaitStarted run_until_phases := by
  constructor
  · intro h
    by_cases ha : rc.value.active = 0
    · simp [runDrain, waitUntilZeroPoll, ha, drainSpec]
    · have hloop := drainLoop_spec events
        { rc with value := { rc.value with blocker := some 0 } }
        (by simpa using h) (by simp; omega) (by simp)
      simp only [runDrain, waitUntilZeroPoll, ha, if_false]
      simpa using hloop
  · decide

/-- C5 witness: with one outstanding connection, a single drop drains the
server (allDrained), matching drainSpec; a timer firing first with one
still outstanding yields timedOut, matching drainSpec. -/
theorem C5_shutdown_drain_witness :
    ((runDrain { strong := 1, value := { active := 1, blocker := none } }
        [DrainEvent.dropSvc]).1 =
      drainSpec 1 [DrainEvent.dropSvc])
    ∧
    ((runDrain { strong := 1, value := { active := 1, blocker := none } }
        [DrainEvent.timerFire, DrainEvent.dropSvc]).1 =
      drainSpec 1 [DrainEvent.timerFire, DrainEvent.dropSvc]) := by
  exact ⟨(C5_shutdown_drain { strong := 1, value := { active := 1, blocker := none } }
            [DrainEvent.dropSvc]).1 (by decide),
         (C5_shutdown_drain { strong := 1, value := { active := 1, blocker := none } }
            [DrainEvent.timerFire, DrainEvent.dropSvc]).1 (by decide)⟩

/-- C7: once no strong reference to the LiveCount cell remains, a
NotifyService drop is a no-op — the weak upgrade fails, so the cell is
untouched and nothing is notified; in particular after run_until (which
held the single strong reference, created with strong count 1) releases
it, any late drop is such a no-op. -/
theorem C7_late_drop_noop (rc : RcInfo) :
    (rc.strong = 0 → notifyServiceDrop rc = (rc, []))
    ∧
    (rc.strong = 1 →
       (releaseStrong rc).strong = 0 ∧
       notifyServiceDrop (releaseStrong rc) = (releaseStrong rc, [])) := by
  constructor
  · intro h
    simp [notifyServiceDrop, weakUpgrade, h]
  · intro h
    have h0 : (releaseStrong rc).strong = 0 := by simp [releaseStrong, h]
    exact ⟨h0, by simp [notifyServiceDrop, weakUpgrade, h0]⟩

/-- C7 witness: releasing the single strong reference of a cell with
three live services and a parked waiter makes a subsequent drop leave
the cell untouched and notify no one. -/
theorem C7_late_drop_noop_witness :
    (releaseStrong { strong := 1, value := { active := 3, blocker := some 5 } }).strong = 0
    ∧
    notifyServiceDrop
        (releaseStrong { strong := 1, value := { active := 3, blocker := some 5 } }) =
      (releaseStrong { strong := 1, value := { active := 3, blocker := some 5 } }, []) :=
  (C7_late_drop_noop { strong := 1, value := { active := 3, blocker := some 5 } }).2 rfl

/-- C8: SocketAddrService stamps its stored peer address into every
request before delegating to the inner service; through run_until's
wrappers the user service observes each request with the remote address
recorded at accept time (the socket's remote_addr, i.e. the transport's
remote()); and Serve.poll calls remote_addr(io.remote()) on each fresh
service before building the Connection, whose recorded peer address is
io.remote(). -/
theorem C8_address_injection :
    (∀ (S R : Type) (innerCall : S → Request → R) (addr : SocketAddr)
        (svc : S) (req : Request),
       SocketAddrService.call innerCall (SocketAddrService.new addr svc) req =
         innerCall svc { req with remote_addr := some addr })
    ∧
    (∀ (factory : Except HError MService) (rc : RcInfo) (socket : AddrStream)
        (svc : NotifyService (SocketAddrService MService)) (rc2 : RcInfo),
       run_until_body factory rc socket = Except.ok (svc, rc2) →
       ∀ req : Request,
         NotifyService.call (SocketAddrService.call MService.call) svc req =
           svc.inner.inner.handle { req with remote_addr := some socket.remote_addr })
    ∧
    (∀ (s : Serve Unit) (io : AddrStream) (svc : MService),
       s.new_service = Except.ok svc →
       Serve.poll s (StreamPoll.readySome io) =
         StreamPoll.readySome
           (s.protocol.serve_connection io
             (MService.remote_addr svc (AddrStream.remote io)))
       ∧ (s.protocol.serve_connection io
            (MService.remote_addr svc (AddrStream.remote io))).conn.service.remote =
           some (AddrStream.remote io)
       ∧ (s.protocol.serve_connection io
            (MService.remote_addr svc (AddrStream.remote io))).remote_addr =
           AddrStream.remote io) := by
  refine ⟨?_, ?_, ?_⟩
  · intro S R innerCall addr svc req
    simp [SocketAddrService.call, SocketAddrService.new, proto_request_addr]
  · intro factory rc socket svc rc2 hok req
    cases factory with
    | error e => simp [run_until_body] at hok
    | ok s0 =>
      simp [run_until_body] at hok
      obtain ⟨h1, h2⟩ := hok
      subst h1
      simp [NotifyService.call, SocketAddrService.call, SocketAddrService.new,
            MService.call, proto_request_addr]
  · intro s io svc hns
    refine ⟨?_, ?_, ?_⟩
    · simp only [Serve.poll, hns]
      rfl
    · simp [Http.serve_connection, MService.remote_addr, RemoteAddr.remote]
    · simp [Http.serve_connection, RemoteAddr.remote]

/-- C8 witness: with a concrete echo-like service, the inner service
observes the stamped address; the run_until wrappers deliver the
accept-time remote address; and Serve.poll yields a connection whose
service and connection record the transport's remote address. -/
theorem C8_address_injection_witness :
    (SocketAddrService.call MService.call
        (SocketAddrService.new (SocketAddr.v4 1 80)
          { remote := none, handle := fun r => { body := r.body } })
        { body := 5, remote_addr := none } =
      MService.call { remote := none, handle := fun r => { body := r.body } }
        { body := 5, remote_addr := some (SocketAddr.v4 1 80) })
    ∧
    (NotifyService.call (SocketAddrService.call MService.call)
        { inner := SocketAddrService.new (SocketAddr.v4 1 80)
            { remote := none, handle := fun r => { body := r.body } } }
        { body := 5, remote_addr := none } =
      ({ remote := none, handle := fun r => { body := r.body } } : MService).handle
        { body := 5, remote_addr := some (SocketAddr.v4 1 80) })
    ∧
    (Serve.poll
        { incoming := (), new_service := Except.ok
            { remote := none, handle := fun r => { body := r.body } },
          protocol := Http.new }
        (StreamPoll.readySome
          (AddrStream.new { id := 0, keepalive := none, keepaliveFails := false }
            (SocketAddr.v4 1 80))) =
      StreamPoll.readySome
        (Http.new.serve_connection
          (AddrStream.new { id := 0, keepalive := none, keepaliveFails := false }
            (SocketAddr.v4 1 80))
          (MService.remote_addr
            { remote := none, handle := fun r => { body := r.body } }
            (AddrStream.remote
              (AddrStream.new { id := 0, keepalive := none, keepaliveFails := false }
                (SocketAddr.v4 1 80)))))) := by
  refine ⟨C8_address_injection.1 MService Response MService.call (SocketAddr.v4 1 80)
            { remote := none, handle := fun r => { body := r.body } }
            { body := 5, remote_addr := none }, ?_, ?_⟩
  · exact C8_address_injection.2.1
      (Except.ok { remote := none, handle := fun r => { body := r.body } })
      mkLiveCount
      (AddrStream.new { id := 0, keepalive := none, keepaliveFails := false }
        (SocketAddr.v4 1 80))
      { inner := SocketAddrService.new (SocketAddr.v4 1 80)
          { remote := none, handle := fun r => { body := r.body } } }
      { strong := 1, value := { active := 1, blocker := none } } rfl
      { body := 5, remote_addr := none }
  · exact (C8_address_injection.2.2
      { incoming := (), new_service := Except.ok
          { remote := none, handle := fun r => { body := r.body } },
        protocol := Http.new }
      (AddrStream.new { id := 0, keepalive := none, keepaliveFails := false }
        (SocketAddr.v4 1 80))
      { remote := none, handle := fun r => { body := r.body } } rfl).1

/-- C9: Http.new returns keep_alive = true, pipeline = false,
sleep_on_errors = false and max_buf_size unset; bind builds a Server
with shutdown_timeout exactly 1s (1000 ms); thread_listener sets
SO_REUSEADDR and (on unix) SO_REUSEPORT, listens with backlog 1024 and
picks the IP family from the supplied address; and the 90s SO_KEEPALIVE
tag is applied to accepted sockets exactly when HTTP keep-alive is
enabled. -/
theorem C9_configuration_defaults :
    (Http.new.keep_alive = true ∧ Http.new.pipeline = false ∧
     Http.new.sleep_on_errors = false ∧ Http.new.max_buf_size = none)
    ∧
    (∀ (S : Type) (h : Http) (addr : SocketAddr) (svc : S),
       (h.bind addr svc).shutdown_timeout = 1000)
    ∧
    (∀ addr : SocketAddr,
       (thread_listener addr).reuse_address = true ∧
       (thread_listener addr).reuse_port = true ∧
       (thread_listener addr).backlog = 1024 ∧
       (thread_listener addr).family = addr.family)
    ∧
    (∀ (p : Http) (addr : SocketAddr) (accepts : List AcceptResult),
       (run_until_incoming p addr accepts).keep_alive_timeout =
         (if p.keep_alive then some 90000 else none))
    ∧
    (∀ (d : Nat) (so : Bool) (sock : TcpSocket) (addr : SocketAddr)
        (rest : List AcceptResult) (fr : List Bool),
       sock.keepaliveFails = false →
       (acceptLoop (some d) so (AcceptResult.ok sock addr :: rest) fr).1 =
         StreamPoll.readySome (AddrStream.new { sock with keepalive := some d } addr))
    ∧
    (∀ (so : Bool) (sock : TcpSocket) (addr : SocketAddr)
        (rest : List AcceptResult) (fr : List Bool),
       (acceptLoop none so (AcceptResult.ok sock addr :: rest) fr).1 =
         StreamPoll.readySome (AddrStream.new sock addr)) := by
  refine ⟨⟨rfl, rfl, rfl, rfl⟩, fun S h addr svc => rfl, ?_, ?_, ?_, ?_⟩
  · intro addr
    cases addr <;>
      simp [thread_listener, reuse_port, TcpBuilder.new_v4, TcpBuilder.new_v6,
            SocketAddr.family]
  · intro p addr accepts
    by_cases hk : p.keep_alive <;>
      simp [run_until_incoming, AddrIncoming.new, AddrIncoming.set_keepalive, hk]
  · intro d so sock addr rest fr hkf
    simp [acceptLoop, TcpSocket.set_keepalive, hkf]
  · intro so sock addr rest fr
    simp [acceptLoop]

/-- C9 witness: the keepalive tag is written onto a concrete accepted
socket whose set_keepalive succeeds. -/
theorem C9_configuration_defaults_witness :
    (acceptLoop (some 90000) true
        [AcceptResult.ok { id := 3, keepalive := none, keepaliveFails := false }
          (SocketAddr.v6 2 443)] []).1 =
      StreamPoll.readySome
        (AddrStream.new { id := 3, keepalive := some 90000, keepaliveFails := false }
          (SocketAddr.v6 2 443)) :=
  C9_configuration_defaults.2.2.2.2.1 90000 true
    { id := 3, keepalive := none, keepaliveFails := false }
    (SocketAddr.v6 2 443) [] [] rfl

/-- C10: when the incoming stream's poll yields end-of-stream
(Ready(None)), Serve's poll yields Ready(None) for every factory — in
particular even for a factory whose new_service() call would fail — so
the factory is not consulted and a finite incoming stream terminates
cleanly. -/
theorem C10_serve_end_of_stream :
    (∀ s : Serve Unit,
       Serve.poll (J := AddrStream) s StreamPoll.readyNone = StreamPoll.readyNone)
    ∧
    (∀ (p : Http) (e : HError),
       Serve.poll (J := AddrStream)
         { incoming := (), new_service := Except.error e, protocol := p }
         StreamPoll.readyNone = StreamPoll.readyNone) := by
  exact ⟨fun s => rfl, fun p e => rfl⟩

end HyperServer
